import Mathlib

/-!
Verification development for `scripts/generate_widgets.py`, a GitHub-profile
widget generator.  The script aggregates repository/event data into a
statistics record (`fetch_user_data`) and renders four SVG widgets
(`generate_code_dna`, `generate_repo_skyline`, `generate_skill_tree`,
`generate_code_weather`).  The definitions below are a shallow embedding of
the aggregation and of the numeric/classification cores of the renderers:
Python dicts built by `defaultdict(int)` updates become association lists
over a decidable key type, Python float arithmetic becomes exact rational
arithmetic (with `math.pi` kept symbolic as `Real.pi` in the statements),
and the `None`/exception discipline of the API layer becomes
`Option`/`Except`.  Library calls that are external to the repository
(`datetime.fromisoformat`, the salted builtin `hash`, the network itself)
enter as explicit function parameters or outcome data.
-/

namespace Widgets

/-! ### Association-list counters

`defaultdict(int)` maps updated by `m[k] += b`.  `bumpBy` updates the first
entry with the given key (appending a fresh entry when the key is absent),
`lookupV` reads a key (absent ⇒ 0), `totalVals` sums all stored values. -/

def bumpBy {κ : Type} [DecidableEq κ] : List (κ × Nat) → κ → Nat → List (κ × Nat)
  | [], k, b => [(k, b)]
  | (k', v) :: rest, k, b =>
      if k' = k then (k', v + b) :: rest else (k', v) :: bumpBy rest k b

def lookupV {κ : Type} [DecidableEq κ] : List (κ × Nat) → κ → Nat
  | [], _ => 0
  | (k', v) :: rest, k => if k' = k then v else lookupV rest k

def totalVals {κ : Type} (m : List (κ × Nat)) : Nat :=
  (m.map Prod.snd).sum

/-- `for l, bytes_count in langs.items(): lang_totals[l] += bytes_count` —
merge one repository's language map into an accumulator by summation. -/
def addAll {κ : Type} [DecidableEq κ] (m ls : List (κ × Nat)) : List (κ × Nat) :=
  ls.foldl (fun acc p => bumpBy acc p.1 p.2) m

/-- Total of the values attached to key `k` in an input map (an input may in
principle repeat a key; the fold semantics sums every occurrence). -/
def sumMatching {κ : Type} [DecidableEq κ] (ls : List (κ × Nat)) (k : κ) : Nat :=
  ((ls.filter (fun p => p.1 == k)).map Prod.snd).sum

/-! ### Aggregator data model (`fetch_user_data`)

A raw repository entry as returned by `/users/{u}/repos` (only the fields the
script reads), the per-repository record the script builds, a public event
(only the fields the script reads; `Option` marks a possibly missing JSON
key), and the resulting statistics record. -/

structure RawRepo where
  name : String
  language : Option String
  fork : Bool
  stargazers_count : Nat
  size : Nat
deriving DecidableEq

structure RepoData where
  name : String
  language : String
  stars : Nat
  size : Nat
  languages : List (String × Nat)
deriving DecidableEq

structure Event where
  created_at : Option String
  type : Option String
deriving DecidableEq

structure ProfileStats where
  repos : List RepoData
  languages : List (String × Nat)
  daily_activity : List (String × Nat)
  hourly_activity : List (Nat × Nat)
  event_types : List (String × Nat)
  total_repos : Nat
  total_stars : Nat
deriving DecidableEq

/-- Python's `x or d` for a possibly-missing string: `None` and `""` are both
falsy (`lang = repo.get("language") or "Other"`). -/
def orFalsy (s : Option String) (d : String) : String :=
  match s with
  | none => d
  | some v => if v = "" then d else v

/-- The global language map: the fetch loop runs
`lang_totals[l] += bytes_count` over every language entry of every kept
(non-fork) repository, in order. -/
def lang_totals (repos : List RepoData) : List (String × Nat) :=
  repos.foldl (fun m r => addAll m r.languages) []

/-! ### Event aggregation (`fetch_user_data`, events loop)

```
for event in events:
    created = event.get("created_at", "")
    if created:
        try:
            dt = datetime.fromisoformat(created.replace("Z", "+00:00"))
            daily_activity[dt.strftime("%Y-%m-%d")] += 1
            hourly_activity[dt.hour] += 1
        except:
            pass
    event_types[event.get("type", "Unknown")] += 1
```
`datetime.fromisoformat` is Python-library code, external to the repository;
it enters as a parameter `parse` returning the day key and the hour on
success and `none` when it raises (the `except: pass` branch). -/

abbrev EventState : Type :=
  List (String × Nat) × List (Nat × Nat) × List (String × Nat)

def eventStep (parse : String → Option (String × Nat))
    (st : EventState) (e : Event) : EventState :=
  let created := e.created_at.getD ""
  let dh :=
    if created ≠ "" then
      match parse created with
      | some p => (bumpBy st.1 p.1 1, bumpBy st.2.1 p.2 1)
      | none => (st.1, st.2.1)
    else (st.1, st.2.1)
  (dh.1, dh.2, bumpBy st.2.2 (e.type.getD "Unknown") 1)

def processEventsFrom (parse : String → Option (String × Nat)) :
    EventState → List Event → EventState
  | st, [] => st
  | st, e :: rest => processEventsFrom parse (eventStep parse st e) rest

def processEvents (parse : String → Option (String × Nat))
    (events : List Event) : EventState :=
  processEventsFrom parse (([], [], []) : EventState) events

/-- An event enters the daily/hourly maps exactly when its `created_at` is
present, non-empty, and parses. -/
def parsesOK (parse : String → Option (String × Nat)) (e : Event) : Bool :=
  (e.created_at.getD "" != "") && (parse (e.created_at.getD "")).isSome

def countParseable (parse : String → Option (String × Nat))
    (events : List Event) : Nat :=
  (events.filter (parsesOK parse)).length

def countType (events : List Event) (t : String) : Nat :=
  (events.filter (fun e => e.type.getD "Unknown" == t)).length

/-! ### API boundary (`github_api` and `fetch_user_data`)

`requests.get` either returns a response with a status code or raises
(transport error / timeout).  `github_api` returns the JSON payload on
status 200 and `None` on any other status; a raised exception is *not*
caught there and propagates (`Except.error`). -/

inductive HttpOutcome (α : Type) where
  | success : α → HttpOutcome α
  | status : Nat → HttpOutcome α
  | exn : HttpOutcome α

def HttpOutcome.isExn {α : Type} : HttpOutcome α → Bool
  | .exn => true
  | _ => false

def github_api {α : Type} : HttpOutcome α → Except Unit (Option α)
  | .success a => .ok (some a)
  | .status _ => .ok none
  | .exn => .error ()

/-- The `Option` value `github_api` hands back when it does return (status
200 ⇒ the payload, any other status ⇒ `None`). -/
def HttpOutcome.payload {α : Type} : HttpOutcome α → Option α
  | .success a => some a
  | .status _ => none
  | .exn => none

/-- The outcomes of the four logical upstream queries of one run: user
profile, repository list, per-repository language map (one query per kept
repository, keyed by repository name), public events. -/
structure Upstream where
  user : HttpOutcome Unit
  repos : HttpOutcome (List RawRepo)
  langs : String → HttpOutcome (List (String × Nat))
  events : HttpOutcome (List Event)

/-- The fetch loop over raw repositories: a fork is skipped entirely (its
language query is never issued); otherwise the language query result
(`github_api(...) or {}`) is recorded.  A raised transport error aborts the
whole fetch, which the `Except` bind reflects. -/
def buildRepoData (langsQ : String → HttpOutcome (List (String × Nat))) :
    List RawRepo → Except Unit (List RepoData)
  | [] => .ok []
  | r :: rest =>
    if r.fork then buildRepoData langsQ rest
    else do
      let langs := (← github_api (langsQ r.name)).getD []
      let tail ← buildRepoData langsQ rest
      return { name := r.name, language := orFalsy r.language "Other",
               stars := r.stargazers_count, size := r.size,
               languages := langs } :: tail

/-- `fetch_user_data`: the four queries run in order (user, repos, one
language query per kept repo, events); each `or {}` / `or []` turns a
non-success status into an empty result.  The Python loop accumulates
`lang_totals` and `repo_data` together from the same per-repo query result;
folding `lang_totals` over the stored `repo_data` maps afterwards is that
same fold. -/
def fetch_user_data (parse : String → Option (String × Nat))
    (u : Upstream) : Except Unit ProfileStats := do
  let _user := (← github_api u.user).getD ()
  let rawRepos := (← github_api u.repos).getD []
  let repo_data ← buildRepoData u.langs rawRepos
  let evs := (← github_api u.events).getD []
  let agg := processEvents parse evs
  return { repos := repo_data,
           languages := lang_totals repo_data,
           daily_activity := agg.1,
           hourly_activity := agg.2.1,
           event_types := agg.2.2,
           total_repos := repo_data.length,
           total_stars := (repo_data.map RepoData.stars).sum }

/-- No upstream query of the run raises a transport error / timeout (the
only failures are non-success statuses, which `github_api` maps to `None`). -/
def noTransportError (u : Upstream) : Prop :=
  u.user.isExn = false ∧ u.repos.isExn = false ∧
  (∀ n, (u.langs n).isExn = false) ∧ u.events.isExn = false

/-! ### Skill Tree level thresholds (`generate_skill_tree`)

```
if pct > 0.7:    level = "Master"
elif pct > 0.4:  level = "Expert"
elif pct > 0.2:  level = "Adept"
elif pct > 0.08: level = "Skilled"
else:            level = "Novice"
```
`pct = bytes_count / max_bytes` is modelled as an exact rational. -/

def skill_level (pct : ℚ) : String :=
  if pct > 0.7 then "Master"
  else if pct > 0.4 then "Expert"
  else if pct > 0.2 then "Adept"
  else if pct > 0.08 then "Skilled"
  else "Novice"

/-! ### Code Weather bands (`generate_code_weather`)

```
if today_count == 0:    weather = "Cloudy"
elif today_count <= 2:  weather = "Partly Cloudy"
elif today_count <= 5:  weather = "Sunny"
elif today_count <= 10: weather = "Hot"
else:                   weather = "Thunderstorm"
```
(The 7-day mini-forecast icons use the same five cut points.) -/

def weather_band (c : ℕ) : String :=
  if c = 0 then "Cloudy"
  else if c ≤ 2 then "Partly Cloudy"
  else if c ≤ 5 then "Sunny"
  else if c ≤ 10 then "Hot"
  else "Thunderstorm"

/-! ### Code Weather trend (`generate_code_weather`)

```
avg_7 = sum(last_7) / max(len(last_7), 1)
avg_30 = sum(last_30) / max(len(last_30), 1)
if avg_7 > avg_30 * 1.2:   trend = "↑ Trending up"
elif avg_7 < avg_30 * 0.8: trend = "↓ Cooling down"
else:                      trend = "→ Steady"
```
`last_30[i]` is `daily_activity.get(day_i, 0)` for the day `i` days ago; the
history is modelled as a function from days-ago to a count (the day-index to
date-string conversion is `datetime` library code).  The trend string is
abbreviated to its direction word. -/

def trendStr (a7 a30 : ℚ) : String :=
  if a7 > a30 * 1.2 then "up"
  else if a7 < a30 * 0.8 then "down"
  else "steady"

def last7 (counts : ℕ → ℕ) : List ℕ := (List.range 7).map counts

def last30 (counts : ℕ → ℕ) : List ℕ := (List.range 30).map counts

def avg_7 (counts : ℕ → ℕ) : ℚ :=
  ((last7 counts).sum : ℚ) / (max (last7 counts).length 1 : ℚ)

def avg_30 (counts : ℕ → ℕ) : ℚ :=
  ((last30 counts).sum : ℚ) / (max (last30 counts).length 1 : ℚ)

def trendOf (counts : ℕ → ℕ) : String :=
  trendStr (avg_7 counts) (avg_30 counts)

/-! ### Division guards (claim C7)

Every denominator the renderers divide by, as computed in the source. -/

/-- `generate_code_dna`: `total_bytes = sum(languages.values()) or 1`. -/
def dna_total_bytes (langs : List (String × Nat)) : Nat :=
  if totalVals langs = 0 then 1 else totalVals langs

/-- `generate_repo_skyline`: the substitute entry
`{"name": "no-repos", "language": "Other", "size": 100, "stars": 0}`. -/
def noReposPlaceholder : RepoData :=
  { name := "no-repos", language := "Other", stars := 0, size := 100,
    languages := [] }

/-- Stable insertion into a size-descending list: an element is placed
before the first strictly-or-equally smaller one, matching Python's stable
`sorted(..., key=lambda r: r.get("size", 0), reverse=True)` when elements
are inserted right-to-left. -/
def insertBySize (r : RepoData) : List RepoData → List RepoData
  | [] => [r]
  | x :: xs => if x.size ≤ r.size then r :: x :: xs else x :: insertBySize r xs

def sortBySizeDesc (rs : List RepoData) : List RepoData :=
  rs.foldr insertBySize []

/-- `repos = sorted(...)[:18]; if not repos: repos = [placeholder]`. -/
def skyline_repos (rs : List RepoData) : List RepoData :=
  let sel := (sortBySizeDesc rs).take 18
  if sel.isEmpty then [noReposPlaceholder] else sel

/-- Python `max` over a (nonempty) list of naturals. -/
def maxList (l : List Nat) : Nat := l.foldr max 0

/-- `generate_repo_skyline`: `max_size = max(r.get("size", 1) for r in repos) or 1`. -/
def skyline_max_size (rs : List RepoData) : Nat :=
  let m := maxList (rs.map RepoData.size)
  if m = 0 then 1 else m

/-- `generate_code_weather` bar chart:
`max_val = max(last_30) if last_30 and max(last_30) > 0 else 1`. -/
def weather_max_val (counts : ℕ → ℕ) : Nat :=
  if last30 counts ≠ [] ∧ 0 < maxList (last30 counts)
  then maxList (last30 counts) else 1

/-- `generate_skill_tree`: `max_bytes = max(languages.values()) if languages else 1`. -/
def skill_max_bytes (langs : List (String × Nat)) : Nat :=
  if langs.isEmpty then 1 else maxList (langs.map Prod.snd)

/-! ### Code DNA hash-derived parameters (`generate_code_dna`)

```
data_hash = hashlib.md5(json.dumps(sorted(languages.items())).encode()).hexdigest()
phase_offset = int(data_hash[:4], 16) / 65535 * math.pi * 2
freq_mod = 0.8 + (int(data_hash[4:8], 16) / 65535) * 0.6
```
`hashlib.md5` is library code external to the repository; its two 4-hex-digit
slices enter as natural-number parameters `h ≤ 65535` (`int(…, 16)` of four
hex digits).  `phase_offset` is `phase_pi_coeff h · π`; the coefficient is
kept rational and `π` symbolic. -/

def phase_pi_coeff (h : ℕ) : ℚ := (h : ℚ) / 65535 * 2

def freq_mod (h : ℕ) : ℚ := 0.8 + ((h : ℚ) / 65535) * 0.6

/-! ### Repo Skyline window dots (`generate_repo_skyline`)

`lit = (hash(f"{name}{wx}{wy}") % 3) != 0` — the builtin `hash` on strings
is salted per Python process (PYTHONHASHSEED), so it enters as a function
parameter: one run of the program fixes one such function. -/

def windowLit (pyHash : String → Int) (name : String) (wx wy : ℕ) : Bool :=
  pyHash (name ++ toString wx ++ toString wy) % 3 != 0

/-! ## Theorems -/

/-! ### Counter-map lemmas -/

theorem totalVals_bumpBy {κ : Type} [DecidableEq κ]
    (m : List (κ × Nat)) (k : κ) (b : Nat) :
    totalVals (bumpBy m k b) = totalVals m + b := by
  induction m with
  | nil => simp [bumpBy, totalVals]
  | cons p rest ih =>
    obtain ⟨k', v⟩ := p
    by_cases h : k' = k
    · simp [bumpBy, h, totalVals]
      omega
    · simp [bumpBy, h, totalVals] at ih ⊢
      omega

theorem lookupV_bumpBy {κ : Type} [DecidableEq κ]
    (m : List (κ × Nat)) (k k' : κ) (b : Nat) :
    lookupV (bumpBy m k b) k' = lookupV m k' + (if k' = k then b else 0) := by
  induction m with
  | nil =>
    by_cases h : k' = k
    · subst h; simp [bumpBy, lookupV]
    · simp [bumpBy, lookupV, h, Ne.symm h]
  | cons p rest ih =>
    obtain ⟨k₀, v⟩ := p
    by_cases h0 : k₀ = k
    · subst h0
      by_cases h1 : k₀ = k'
      · subst h1; simp [bumpBy, lookupV]
      · simp [bumpBy, lookupV, h1, Ne.symm h1]
    · by_cases h2 : k₀ = k'
      · subst h2
        simp [bumpBy, lookupV, h0]
      · simp [bumpBy, lookupV, h0, h2, ih]

theorem totalVals_addAll {κ : Type} [DecidableEq κ] (ls m : List (κ × Nat)) :
    totalVals (addAll m ls) = totalVals m + totalVals ls := by
  induction ls generalizing m with
  | nil => simp [addAll, totalVals]
  | cons p rest ih =>
    obtain ⟨k, b⟩ := p
    simp only [addAll, List.foldl_cons] at ih ⊢
    rw [ih (bumpBy m k b), totalVals_bumpBy]
    simp [totalVals]
    omega

theorem lookupV_addAll {κ : Type} [DecidableEq κ] (ls m : List (κ × Nat)) (k' : κ) :
    lookupV (addAll m ls) k' = lookupV m k' + sumMatching ls k' := by
  induction ls generalizing m with
  | nil => simp [addAll, sumMatching]
  | cons p rest ih =>
    obtain ⟨k, b⟩ := p
    simp only [addAll, List.foldl_cons] at ih ⊢
    rw [ih (bumpBy m k b), lookupV_bumpBy]
    by_cases h : k' = k
    · subst h
      simp [sumMatching]
      omega
    · simp [sumMatching, h, Ne.symm h]

/-! ### Aggregation lemmas and conservation (C1, C2) -/

theorem lookupV_lang_totals_from (repos : List RepoData)
    (m : List (String × Nat)) (l : String) :
    lookupV (repos.foldl (fun m r => addAll m r.languages) m) l
      = lookupV m l + (repos.map (fun r => sumMatching r.languages l)).sum := by
  induction repos generalizing m with
  | nil => simp
  | cons r rest ih =>
    simp only [List.foldl_cons, List.map_cons, List.sum_cons]
    rw [ih, lookupV_addAll]
    omega

theorem totalVals_lang_totals_from (repos : List RepoData)
    (m : List (String × Nat)) :
    totalVals (repos.foldl (fun m r => addAll m r.languages) m)
      = totalVals m + (repos.map (fun r => totalVals r.languages)).sum := by
  induction repos generalizing m with
  | nil => simp
  | cons r rest ih =>
    simp only [List.foldl_cons, List.map_cons, List.sum_cons]
    rw [ih, totalVals_addAll]
    omega

/-- C1: For every set of non-fork repositories with per-repository language
byte maps, the aggregator's global languageBytes maps each language to the
sum of that language's byte counts across the repositories (merging by
summation), so the total bytes after merging equals the total before
merging — no double counting and no loss.  Concretely, repositories
contributing Python:100 and Python:50, Go:20 yield Python:150, Go:20. -/
theorem c1_language_bytes_conservation :
    (∀ (repos : List RepoData) (l : String),
        lookupV (lang_totals repos) l
          = (repos.map (fun r => sumMatching r.languages l)).sum) ∧
    (∀ repos : List RepoData,
        totalVals (lang_totals repos)
          = (repos.map (fun r => totalVals r.languages)).sum) ∧
    lang_totals
        [⟨"repo1", "Python", 0, 0, [("Python", 100)]⟩,
         ⟨"repo2", "Python", 0, 0, [("Python", 50), ("Go", 20)]⟩]
      = [("Python", 150), ("Go", 20)] := by
  refine ⟨fun repos l => ?_, fun repos => ?_, by decide⟩
  · unfold lang_totals
    rw [lookupV_lang_totals_from]
    simp [lookupV]
  · unfold lang_totals
    rw [totalVals_lang_totals_from]
    simp [totalVals]

theorem except_bind_ok {ε α β : Type} (x : Except ε α) (f : α → Except ε β)
    (b : β) :
    x >>= f = Except.ok b ↔ ∃ a, x = Except.ok a ∧ f a = Except.ok b := by
  cases x with
  | error e => simp [Bind.bind, Except.bind]
  | ok a => simp [Bind.bind, Except.bind]

/-- Any successful `fetch_user_data` result satisfies the definitional field
relations: the global language map is the summation-fold over the kept
repositories, and the totals are the count and the star sum over them. -/
theorem fetch_ok_fields (parse : String → Option (String × Nat)) (u : Upstream)
    (stats : ProfileStats) (h : fetch_user_data parse u = .ok stats) :
    stats.languages = lang_totals stats.repos ∧
    stats.total_repos = stats.repos.length ∧
    stats.total_stars = (stats.repos.map RepoData.stars).sum := by
  unfold fetch_user_data at h
  simp only [except_bind_ok] at h
  obtain ⟨a1, h1, a2, h2, rd, h3, a4, h4, h⟩ := h
  simp only [pure, Except.pure, Except.ok.injEq] at h
  subst h
  exact ⟨rfl, rfl, rfl⟩

/-- C2: A repository flagged as a fork contributes nothing to the fetch:
inserting a fork anywhere in the raw repository list leaves the built
repository data (hence languageBytes and both totals) unchanged, even when
the fork has nonzero stars or size, and its language query is never
consulted; and on every successful fetch, totalStars is the sum of
starCount over the included (non-fork) repositories, totalRepositories is
their count, and the global languageBytes is their summation-fold. -/
theorem c2_fork_exclusion :
    (∀ (langsQ : String → HttpOutcome (List (String × Nat)))
        (l1 l2 : List RawRepo) (f : RawRepo), f.fork = true →
        buildRepoData langsQ (l1 ++ f :: l2) = buildRepoData langsQ (l1 ++ l2)) ∧
    (∀ (parse : String → Option (String × Nat)) (u : Upstream)
        (stats : ProfileStats), fetch_user_data parse u = .ok stats →
        stats.total_stars = (stats.repos.map RepoData.stars).sum ∧
        stats.total_repos = stats.repos.length ∧
        stats.languages = lang_totals stats.repos) := by
  constructor
  · intro langsQ l1 l2 f hf
    induction l1 with
    | nil => simp [buildRepoData, hf]
    | cons r l1 ih =>
      simp only [List.cons_append, buildRepoData, List.append_eq]
      rw [ih]
  · intro parse u stats h
    obtain ⟨hl, hr, hs⟩ := fetch_ok_fields parse u stats h
    exact ⟨hs, hr, hl⟩

/-- Witness for C2 at concrete inputs: a fork with 5 stars and size 100 is
dropped from the built data, and a concrete successful fetch satisfies the
totals relations. -/
theorem c2_fork_exclusion_witness :
    (buildRepoData (fun _ => HttpOutcome.success [("Python", 1)])
        ([] ++ (⟨"forked", some "Python", true, 5, 100⟩ : RawRepo) ::
          [⟨"real", some "Go", false, 1, 10⟩])
      = buildRepoData (fun _ => HttpOutcome.success [("Python", 1)])
        ([] ++ [⟨"real", some "Go", false, 1, 10⟩])) ∧
    ((⟨[], [], [], [], [], 0, 0⟩ : ProfileStats).total_stars
        = ((⟨[], [], [], [], [], 0, 0⟩ : ProfileStats).repos.map
            RepoData.stars).sum ∧
     (⟨[], [], [], [], [], 0, 0⟩ : ProfileStats).total_repos
        = (⟨[], [], [], [], [], 0, 0⟩ : ProfileStats).repos.length ∧
     (⟨[], [], [], [], [], 0, 0⟩ : ProfileStats).languages
        = lang_totals (⟨[], [], [], [], [], 0, 0⟩ : ProfileStats).repos) :=
  ⟨c2_fork_exclusion.1 (fun _ => HttpOutcome.success [("Python", 1)]) []
      [⟨"real", some "Go", false, 1, 10⟩] ⟨"forked", some "Python", true, 5, 100⟩ rfl,
   c2_fork_exclusion.2 (fun _ => none)
      ⟨HttpOutcome.success (), HttpOutcome.status 404,
        fun _ => HttpOutcome.success [], HttpOutcome.success []⟩
      ⟨[], [], [], [], [], 0, 0⟩ rfl⟩

/-! ### API-failure handling (C6) -/

theorem github_api_of_not_exn {α : Type} (o : HttpOutcome α)
    (h : o.isExn = false) : github_api o = .ok o.payload := by
  cases o <;> simp [github_api, HttpOutcome.isExn, HttpOutcome.payload] at h ⊢

theorem buildRepoData_ok (langsQ : String → HttpOutcome (List (String × Nat)))
    (h : ∀ n, (langsQ n).isExn = false) (rs : List RawRepo) :
    ∃ rd, buildRepoData langsQ rs = .ok rd := by
  induction rs with
  | nil => exact ⟨[], rfl⟩
  | cons r rest ih =>
    obtain ⟨rd, hrd⟩ := ih
    by_cases hf : r.fork
    · exact ⟨rd, by simp [buildRepoData, hf, hrd]⟩
    · refine ⟨RepoData.mk r.name (orFalsy r.language "Other")
          r.stargazers_count r.size ((langsQ r.name).payload.getD []) :: rd, ?_⟩
      simp [buildRepoData, hf, github_api_of_not_exn _ (h r.name), hrd,
        Bind.bind, Except.bind, pure, Except.pure]

/-- Every successful-fetch shape under no transport error: the statistics
record assembled from payloads (non-success statuses degraded to `[]`). -/
theorem fetch_eq_of_no_exn (parse : String → Option (String × Nat))
    (u : Upstream) (hnt : noTransportError u) :
    ∃ rd, buildRepoData u.langs (u.repos.payload.getD []) = .ok rd ∧
      fetch_user_data parse u = .ok
        { repos := rd,
          languages := lang_totals rd,
          daily_activity := (processEvents parse (u.events.payload.getD [])).1,
          hourly_activity := (processEvents parse (u.events.payload.getD [])).2.1,
          event_types := (processEvents parse (u.events.payload.getD [])).2.2,
          total_repos := rd.length,
          total_stars := (rd.map RepoData.stars).sum } := by
  obtain ⟨hu, hr, hl, he⟩ := hnt
  obtain ⟨rd, hrd⟩ := buildRepoData_ok u.langs hl (u.repos.payload.getD [])
  refine ⟨rd, hrd, ?_⟩
  unfold fetch_user_data
  rw [github_api_of_not_exn _ hu, github_api_of_not_exn _ hr,
    github_api_of_not_exn _ he]
  simp only [Bind.bind, Except.bind, hrd, pure, Except.pure]

/-- C6 counterexample: a transport error (here on the events query) is not
caught by `github_api` or `fetch_user_data`; the exception propagates and
the aggregator does not return a `ProfileStats` record. -/
theorem c6_transport_error_aborts :
    fetch_user_data (fun _ => none)
      ⟨HttpOutcome.success (), HttpOutcome.success [],
        fun _ => HttpOutcome.success [], HttpOutcome.exn⟩
      = Except.error () ∧
    ¬ ∃ stats : ProfileStats,
        fetch_user_data (fun _ => none)
          ⟨HttpOutcome.success (), HttpOutcome.success [],
            fun _ => HttpOutcome.success [], HttpOutcome.exn⟩
          = Except.ok stats := by
  refine ⟨rfl, ?_⟩
  rintro ⟨stats, hs⟩
  exact Except.noConfusion hs

/-- C6 amended: if no upstream query raises a transport error, any query
that fails by non-success status is replaced by an empty list/map for that
query and the aggregator returns a (possibly sparse) ProfileStats record;
a raised transport error, however, propagates. -/
theorem c6_amended_degradation (parse : String → Option (String × Nat))
    (u : Upstream) (hnt : noTransportError u) :
    ∃ stats : ProfileStats, fetch_user_data parse u = .ok stats ∧
      (∀ c, u.repos = .status c →
        stats.repos = [] ∧ stats.languages = [] ∧
        stats.total_repos = 0 ∧ stats.total_stars = 0) ∧
      (∀ c, u.events = .status c →
        stats.daily_activity = [] ∧ stats.hourly_activity = [] ∧
        stats.event_types = []) := by
  obtain ⟨rd, hrd, hfetch⟩ := fetch_eq_of_no_exn parse u hnt
  refine ⟨_, hfetch, ?_, ?_⟩
  · intro c hc
    rw [hc] at hrd
    simp only [HttpOutcome.payload, Option.getD, buildRepoData] at hrd
    obtain rfl : rd = [] := by
      cases hrd
      rfl
    exact ⟨rfl, rfl, rfl, rfl⟩
  · intro c hc
    rw [hc]
    exact ⟨rfl, rfl, rfl⟩

/-- Witness for C6 amended at a concrete input: repository query failing
with 404 and events query failing with 500 still yield a record. -/
theorem c6_amended_degradation_witness :
    ∃ stats : ProfileStats,
      fetch_user_data (fun _ => none)
        ⟨HttpOutcome.success (), HttpOutcome.status 404,
          fun _ => HttpOutcome.success [], HttpOutcome.status 500⟩
        = .ok stats ∧
      (∀ c, (HttpOutcome.status 404 : HttpOutcome (List RawRepo)) = .status c →
        stats.repos = [] ∧ stats.languages = [] ∧
        stats.total_repos = 0 ∧ stats.total_stars = 0) ∧
      (∀ c, (HttpOutcome.status 500 : HttpOutcome (List Event)) = .status c →
        stats.daily_activity = [] ∧ stats.hourly_activity = [] ∧
        stats.event_types = []) :=
  c6_amended_degradation (fun _ => none)
    ⟨HttpOutcome.success (), HttpOutcome.status 404,
      fun _ => HttpOutcome.success [], HttpOutcome.status 500⟩
    ⟨rfl, rfl, fun _ => rfl, rfl⟩

/-! ### Event-fold lemmas (C5, C10) -/

theorem eventStep_totals (parse : String → Option (String × Nat))
    (st : EventState) (e : Event) :
    totalVals (eventStep parse st e).1
      = totalVals st.1 + (if parsesOK parse e then 1 else 0) ∧
    totalVals (eventStep parse st e).2.1
      = totalVals st.2.1 + (if parsesOK parse e then 1 else 0) ∧
    totalVals (eventStep parse st e).2.2 = totalVals st.2.2 + 1 := by
  by_cases hc : e.created_at.getD "" = ""
  · simp [eventStep, parsesOK, hc, totalVals_bumpBy]
  · cases hp : parse (e.created_at.getD "") with
    | none => simp [eventStep, parsesOK, hc, hp, totalVals_bumpBy]
    | some p => simp [eventStep, parsesOK, hc, hp, totalVals_bumpBy]

theorem countParseable_cons (parse : String → Option (String × Nat))
    (e : Event) (rest : List Event) :
    countParseable parse (e :: rest)
      = (if parsesOK parse e then 1 else 0) + countParseable parse rest := by
  unfold countParseable
  rw [List.filter_cons]
  split_ifs with h
  · simp [h]
    omega
  · simp [h]

theorem processEventsFrom_totals (parse : String → Option (String × Nat))
    (events : List Event) (st : EventState) :
    totalVals (processEventsFrom parse st events).1
      = totalVals st.1 + countParseable parse events ∧
    totalVals (processEventsFrom parse st events).2.1
      = totalVals st.2.1 + countParseable parse events ∧
    totalVals (processEventsFrom parse st events).2.2
      = totalVals st.2.2 + events.length := by
  induction events generalizing st with
  | nil => simp [processEventsFrom, countParseable]
  | cons e rest ih =>
    obtain ⟨hd, hh, ht⟩ := ih (eventStep parse st e)
    obtain ⟨sd, sh, stt⟩ := eventStep_totals parse st e
    refine ⟨?_, ?_, ?_⟩ <;> simp only [processEventsFrom]
    · rw [hd, sd, countParseable_cons]; omega
    · rw [hh, sh, countParseable_cons]; omega
    · rw [ht, stt]; simp; omega

theorem eventStep_types (parse : String → Option (String × Nat))
    (st : EventState) (e : Event) :
    (eventStep parse st e).2.2 = bumpBy st.2.2 (e.type.getD "Unknown") 1 := rfl

theorem processEventsFrom_types (parse : String → Option (String × Nat))
    (events : List Event) (st : EventState) (ty : String) :
    lookupV (processEventsFrom parse st events).2.2 ty
      = lookupV st.2.2 ty + countType events ty := by
  induction events generalizing st with
  | nil => simp [processEventsFrom, countType]
  | cons e rest ih =>
    simp only [processEventsFrom]
    rw [ih (eventStep parse st e), eventStep_types, lookupV_bumpBy]
    unfold countType
    rw [List.filter_cons]
    by_cases h : e.type.getD "Unknown" = ty
    · simp [h]
      omega
    · simp [h, Ne.symm h]

/-- C5: An event whose timestamp cannot be parsed increments neither
dailyActivityCounts nor hourlyActivityCounts and does not abort the (total)
aggregation fold: the totals of both maps equal the number of events with a
present, non-empty, parseable timestamp, and a list of one
unparseable-timestamp event and nine valid-timestamp events yields exactly
nine increments in each map. -/
theorem c5_malformed_timestamp_skipped :
    (∀ (parse : String → Option (String × Nat)) (events : List Event),
        totalVals (processEvents parse events).1 = countParseable parse events ∧
        totalVals (processEvents parse events).2.1 = countParseable parse events) ∧
    (totalVals (processEvents
        (fun s => if s = "bad" then none else some (s, 0))
        [⟨some "bad", some "PushEvent"⟩, ⟨some "d1", some "PushEvent"⟩,
         ⟨some "d2", some "PushEvent"⟩, ⟨some "d3", some "PushEvent"⟩,
         ⟨some "d4", some "CreateEvent"⟩, ⟨some "d5", some "CreateEvent"⟩,
         ⟨some "d6", some "IssuesEvent"⟩, ⟨some "d7", some "WatchEvent"⟩,
         ⟨some "d8", some "PushEvent"⟩, ⟨some "d9", some "PushEvent"⟩]).1 = 9 ∧
     totalVals (processEvents
        (fun s => if s = "bad" then none else some (s, 0))
        [⟨some "bad", some "PushEvent"⟩, ⟨some "d1", some "PushEvent"⟩,
         ⟨some "d2", some "PushEvent"⟩, ⟨some "d3", some "PushEvent"⟩,
         ⟨some "d4", some "CreateEvent"⟩, ⟨some "d5", some "CreateEvent"⟩,
         ⟨some "d6", some "IssuesEvent"⟩, ⟨some "d7", some "WatchEvent"⟩,
         ⟨some "d8", some "PushEvent"⟩, ⟨some "d9", some "PushEvent"⟩]).2.1 = 9) := by
  refine ⟨fun parse events => ?_, by decide, by decide⟩
  obtain ⟨hd, hh, _⟩ := processEventsFrom_totals parse events (([], [], []) : EventState)
  unfold processEvents
  rw [hd, hh]
  simp [totalVals]

/-- C10: eventTypeCounts counts every event, including those whose
timestamp is malformed or missing: the map total equals the event-list
length, each type's counter equals the number of events of that type
(absent types counted under "Unknown"), and a single event with an
unparseable timestamp and a missing type yields empty daily/hourly maps but
`[("Unknown", 1)]` in eventTypeCounts. -/
theorem c10_event_types_count_all :
    (∀ (parse : String → Option (String × Nat)) (events : List Event),
        totalVals (processEvents parse events).2.2 = events.length) ∧
    (∀ (parse : String → Option (String × Nat)) (events : List Event)
        (ty : String),
        lookupV (processEvents parse events).2.2 ty = countType events ty) ∧
    processEvents (fun _ => none) [⟨some "bad", none⟩]
      = (([], [], [("Unknown", 1)]) : EventState) := by
  refine ⟨fun parse events => ?_, fun parse events ty => ?_, by decide⟩
  · obtain ⟨_, _, ht⟩ := processEventsFrom_totals parse events (([], [], []) : EventState)
    unfold processEvents
    rw [ht]
    simp [totalVals]
  · unfold processEvents
    rw [processEventsFrom_types]
    simp [lookupV]

/-! ### Skill-tree / weather classification lemmas -/

theorem skill_level_eq_master (p : ℚ) : skill_level p = "Master" ↔ 0.7 < p := by
  unfold skill_level
  split_ifs with h1 h2 h3 h4
  · exact iff_of_true rfl h1
  · exact iff_of_false (by decide) h1
  · exact iff_of_false (by decide) h1
  · exact iff_of_false (by decide) h1
  · exact iff_of_false (by decide) h1

theorem skill_level_eq_novice (p : ℚ) : skill_level p = "Novice" ↔ p ≤ 0.08 := by
  unfold skill_level
  split_ifs with h1 h2 h3 h4
  · exact iff_of_false (by decide) (by intro hc; linarith)
  · exact iff_of_false (by decide) (by intro hc; linarith)
  · exact iff_of_false (by decide) (by intro hc; linarith)
  · exact iff_of_false (by decide) (not_le.mpr h4)
  · exact iff_of_true rfl (not_lt.mp h4)

theorem weather_band_eq_cloudy (c : ℕ) : weather_band c = "Cloudy" ↔ c = 0 := by
  unfold weather_band
  split_ifs with h1 h2 h3 h4
  · exact iff_of_true rfl h1
  · exact iff_of_false (by decide) h1
  · exact iff_of_false (by decide) h1
  · exact iff_of_false (by decide) h1
  · exact iff_of_false (by decide) h1

theorem weather_band_eq_partly (c : ℕ) :
    weather_band c = "Partly Cloudy" ↔ 1 ≤ c ∧ c ≤ 2 := by
  unfold weather_band
  split_ifs with h1 h2 h3 h4
  · exact iff_of_false (by decide) (by omega)
  · exact iff_of_true rfl (by omega)
  · exact iff_of_false (by decide) (by omega)
  · exact iff_of_false (by decide) (by omega)
  · exact iff_of_false (by decide) (by omega)

theorem weather_band_eq_sunny (c : ℕ) :
    weather_band c = "Sunny" ↔ 3 ≤ c ∧ c ≤ 5 := by
  unfold weather_band
  split_ifs with h1 h2 h3 h4
  · exact iff_of_false (by decide) (by omega)
  · exact iff_of_false (by decide) (by omega)
  · exact iff_of_true rfl (by omega)
  · exact iff_of_false (by decide) (by omega)
  · exact iff_of_false (by decide) (by omega)

theorem weather_band_eq_hot (c : ℕ) :
    weather_band c = "Hot" ↔ 6 ≤ c ∧ c ≤ 10 := by
  unfold weather_band
  split_ifs with h1 h2 h3 h4
  · exact iff_of_false (by decide) (by omega)
  · exact iff_of_false (by decide) (by omega)
  · exact iff_of_false (by decide) (by omega)
  · exact iff_of_true rfl (by omega)
  · exact iff_of_false (by decide) (by omega)

theorem weather_band_eq_storm (c : ℕ) :
    weather_band c = "Thunderstorm" ↔ 10 < c := by
  unfold weather_band
  split_ifs with h1 h2 h3 h4
  · exact iff_of_false (by decide) (by omega)
  · exact iff_of_false (by decide) (by omega)
  · exact iff_of_false (by decide) (by omega)
  · exact iff_of_false (by decide) (by omega)
  · exact iff_of_true rfl (by omega)

/-- C3: Classification thresholds are strict at their boundaries: in the
Skill Tree, a language whose byte proportion of the maximum is exactly 0.7
is classified "Expert" (the tier below the top), the top tier "Master"
requires proportion strictly greater than 0.7, and the lowest tier "Novice"
is assigned exactly when the proportion is at most 0.08; in the Weather
renderer the five bands partition today's count as 0, 1-2, 3-5, 6-10, and
strictly greater than 10, with each boundary count (2, 5, 10) falling into
the lower band. -/
theorem c3_threshold_boundaries :
    skill_level 0.7 = "Expert" ∧
    (∀ p : ℚ, skill_level p = "Master" ↔ 0.7 < p) ∧
    (∀ p : ℚ, skill_level p = "Novice" ↔ p ≤ 0.08) ∧
    (∀ c : ℕ, weather_band c = "Cloudy" ↔ c = 0) ∧
    (∀ c : ℕ, weather_band c = "Partly Cloudy" ↔ 1 ≤ c ∧ c ≤ 2) ∧
    (∀ c : ℕ, weather_band c = "Sunny" ↔ 3 ≤ c ∧ c ≤ 5) ∧
    (∀ c : ℕ, weather_band c = "Hot" ↔ 6 ≤ c ∧ c ≤ 10) ∧
    (∀ c : ℕ, weather_band c = "Thunderstorm" ↔ 10 < c) ∧
    weather_band 2 = "Partly Cloudy" ∧ weather_band 5 = "Sunny" ∧
    weather_band 10 = "Hot" := by
  refine ⟨?_, skill_level_eq_master, skill_level_eq_novice,
    weather_band_eq_cloudy, weather_band_eq_partly, weather_band_eq_sunny,
    weather_band_eq_hot, weather_band_eq_storm, by decide, by decide, by decide⟩
  unfold skill_level
  rw [if_neg (by norm_num), if_pos (by norm_num)]

/-- C7: Given zero repositories, zero languages, or an all-zero 30-day
activity history, the renderers' ratio arithmetic never divides by zero:
the DNA total-byte denominator, the Skyline max-size denominator and the
Weather 30-day-max denominator are each floored to 1 for every input, the
Skill-Tree max-byte denominator is 1 for the zero-language input, zero
repositories are replaced by the one placeholder entry with non-zero size
100, and the average denominators are floored to 1. -/
theorem c7_division_guards :
    (∀ langs : List (String × Nat), 1 ≤ dna_total_bytes langs) ∧
    (∀ rs : List RepoData, 1 ≤ skyline_max_size (skyline_repos rs)) ∧
    (skyline_repos [] = [noReposPlaceholder] ∧ noReposPlaceholder.size = 100) ∧
    (∀ counts : ℕ → ℕ, 1 ≤ weather_max_val counts) ∧
    skill_max_bytes [] = 1 ∧
    (∀ counts : ℕ → ℕ,
      1 ≤ max (last7 counts).length 1 ∧ 1 ≤ max (last30 counts).length 1) := by
  refine ⟨fun langs => ?_, fun rs => ?_, ⟨rfl, rfl⟩, fun counts => ?_, rfl,
    fun counts => ⟨le_max_right _ _, le_max_right _ _⟩⟩
  · unfold dna_total_bytes
    split_ifs with h <;> omega
  · unfold skyline_max_size
    simp only []
    split_ifs with h <;> omega
  · unfold weather_max_val
    split_ifs with h
    · exact h.2
    · exact le_refl 1

/-- C8 counterexample: the phase offset is `phase_pi_coeff h · π` with
`h = int(data_hash[:4], 16) ∈ [0, 65535]`; at the hash prefix ffff
(`h = 65535`) the coefficient is exactly 2, so the phase equals 2π and does
not lie in the half-open interval [0, 2π). -/
theorem c8_phase_at_ffff :
    phase_pi_coeff 65535 = 2 ∧
    (phase_pi_coeff 65535 : ℝ) * Real.pi = 2 * Real.pi ∧
    ¬ ((phase_pi_coeff 65535 : ℝ) * Real.pi < 2 * Real.pi) := by
  have h : phase_pi_coeff 65535 = 2 := by
    unfold phase_pi_coeff
    norm_num
  refine ⟨h, ?_, ?_⟩
  · rw [h]
    norm_num
  · rw [h]
    push_cast
    exact lt_irrefl _

/-- C8 amended: for hash-slice values `h ≤ 65535` (four hex digits), the
phase offset `phase_pi_coeff h · π` lies in the closed interval [0, 2π]
(the normalization divides by 65535, so ffff maps exactly to 2π) and the
frequency multiplier lies in [0.8, 1.4]. -/
theorem c8_amended_parameter_ranges (h1 h2 : ℕ)
    (hh1 : h1 ≤ 65535) (hh2 : h2 ≤ 65535) :
    0 ≤ (phase_pi_coeff h1 : ℝ) * Real.pi ∧
    (phase_pi_coeff h1 : ℝ) * Real.pi ≤ 2 * Real.pi ∧
    0.8 ≤ freq_mod h2 ∧ freq_mod h2 ≤ 1.4 := by
  have hc0 : (0 : ℚ) ≤ phase_pi_coeff h1 := by
    unfold phase_pi_coeff
    positivity
  have hq1 : ((h1 : ℚ)) / 65535 ≤ 1 := by
    rw [div_le_one (by norm_num)]
    exact_mod_cast hh1
  have hc2 : phase_pi_coeff h1 ≤ 2 := by
    unfold phase_pi_coeff
    nlinarith
  have hq2 : ((h2 : ℚ)) / 65535 ≤ 1 := by
    rw [div_le_one (by norm_num)]
    exact_mod_cast hh2
  have hq2' : (0 : ℚ) ≤ (h2 : ℚ) / 65535 := by positivity
  refine ⟨?_, ?_, ?_, ?_⟩
  · exact mul_nonneg (by exact_mod_cast hc0) Real.pi_pos.le
  · have : ((phase_pi_coeff h1 : ℚ) : ℝ) ≤ 2 := by exact_mod_cast hc2
    nlinarith [Real.pi_pos]
  · unfold freq_mod
    nlinarith
  · unfold freq_mod
    nlinarith

/-- Witness for C8 amended at the extreme concrete hash slices 0 and ffff. -/
theorem c8_amended_parameter_ranges_witness :
    0 ≤ (phase_pi_coeff 0 : ℝ) * Real.pi ∧
    (phase_pi_coeff 0 : ℝ) * Real.pi ≤ 2 * Real.pi ∧
    0.8 ≤ freq_mod 65535 ∧ freq_mod 65535 ≤ 1.4 :=
  c8_amended_parameter_ranges 0 65535 (by norm_num) (by norm_num)

/-- C9: the window-dot decision is `hash(f"{name}{wx}{wy}") % 3 != 0` with
Python's builtin string hash, which is salted per process
(PYTHONHASHSEED): the pattern is a deterministic function of the hash
function, the repository name and the window coordinates, but two hash
functions — two runs with different salts — can disagree at the same input,
so the code does not guarantee run-to-run stability of the pattern. -/
theorem c9_window_pattern_hash_dependence :
    windowLit (fun _ => 0) "awesome-project" 0 0 = false ∧
    windowLit (fun _ => 1) "awesome-project" 0 0 = true ∧
    ∀ (f : String → Int) (name : String) (wx wy : ℕ),
      windowLit f name wx wy
        = (f (name ++ toString wx ++ toString wy) % 3 != 0) :=
  ⟨by decide, by decide, fun f name wx wy => rfl⟩

/-! ### Trend lemmas -/

theorem avg_30_nonneg (counts : ℕ → ℕ) : 0 ≤ avg_30 counts := by
  unfold avg_30
  positivity

theorem trendStr_eq_up (a7 a30 : ℚ) (h30 : 0 ≤ a30) :
    trendStr a7 a30 = "up" ↔ a7 > 1.2 * a30 := by
  unfold trendStr
  split_ifs with h1 h2
  · exact iff_of_true rfl (by linarith)
  · exact iff_of_false (by decide) (by intro hc; exact h1 (by linarith))
  · exact iff_of_false (by decide) (by intro hc; exact h1 (by linarith))

theorem trendStr_eq_down (a7 a30 : ℚ) (h30 : 0 ≤ a30) :
    trendStr a7 a30 = "down" ↔ a7 < 0.8 * a30 := by
  unfold trendStr
  split_ifs with h1 h2
  · exact iff_of_false (by decide) (by intro hc; linarith)
  · exact iff_of_true rfl (by linarith)
  · exact iff_of_false (by decide) (by intro hc; exact h2 (by linarith))

theorem trendStr_eq_steady (a7 a30 : ℚ) :
    trendStr a7 a30 = "steady" ↔ ¬(a7 > 1.2 * a30) ∧ ¬(a7 < 0.8 * a30) := by
  unfold trendStr
  split_ifs with h1 h2
  · exact iff_of_false (by decide) (by intro hc; exact hc.1 (by linarith))
  · exact iff_of_false (by decide) (by intro hc; exact hc.2 (by linarith))
  · refine iff_of_true rfl ⟨fun hc => h1 (by linarith), fun hc => h2 (by linarith)⟩

/-- C4: For every daily activity history, the Weather renderer's trend is
"up" exactly when the trailing 7-day average exceeds the trailing 30-day
average by more than 20% (avg7 > 1.2·avg30), "down" exactly when it is more
than 20% below (avg7 < 0.8·avg30), and "steady" otherwise; in particular
averages 10 vs 8 give "up", 6 vs 8 give "down", and 9 vs 10 give "steady". -/
theorem c4_trend_classification :
    trendStr 10 8 = "up" ∧ trendStr 6 8 = "down" ∧ trendStr 9 10 = "steady" ∧
    ∀ counts : ℕ → ℕ,
      (trendOf counts = "up" ↔ avg_7 counts > 1.2 * avg_30 counts) ∧
      (trendOf counts = "down" ↔ avg_7 counts < 0.8 * avg_30 counts) ∧
      (trendOf counts = "steady" ↔
        ¬(avg_7 counts > 1.2 * avg_30 counts) ∧
        ¬(avg_7 counts < 0.8 * avg_30 counts)) := by
  refine ⟨?_, ?_, ?_, fun counts => ?_⟩
  · unfold trendStr
    rw [if_pos (by norm_num)]
  · unfold trendStr
    rw [if_neg (by norm_num), if_pos (by norm_num)]
  · unfold trendStr
    rw [if_neg (by norm_num), if_neg (by norm_num)]
  · have h30 := avg_30_nonneg counts
    exact ⟨trendStr_eq_up _ _ h30, trendStr_eq_down _ _ h30,
      trendStr_eq_steady _ _⟩

end Widgets
